import Mathlib

/-!
Shallow embedding of `src/msdt-1/bank.py` (a small retail-bank ledger:
polymorphic accounts, amortized loans, customers, and a bank-level registry
with analytics) together with proofs settling the frozen claims about it.

Modelling conventions:
* Python numbers (balances, amounts, rates) are embedded as `Rat`; the
  arithmetic the claims exercise is exact in the source's cases of interest.
* Timestamps come from the external clock (`datetime.datetime.now()`), which
  the spec treats as an injected collaborator; transaction records and loan
  payment-history entries are embedded without the timestamp component, which
  no claim inspects.
* Python code that can raise (`x / 0` and `0.0 ** -n` raise
  `ZeroDivisionError`) is embedded as `Option`-returning: `none` models the
  exception propagating out (the program has no handler, so the run aborts).
* Mutation of objects shared by reference is embedded as explicit state
  passing; where aliasing matters (`transfer` whose target may be the source
  object, a customer object registered inside a `Bank`), operations act on a
  list of records through an index, each Python mutation becoming one
  functional list update, in the source's statement order.
-/

/-- Embedding of `Transaction` from `bank.py`: one ledger event. In the source
`transaction_type` is a plain string such as `"Deposit"`; the `date` field
(defaulted from the external clock) is omitted, as explained above. -/
structure Transaction where
  transaction_type : String
  amount : Rat
deriving DecidableEq, Repr

/-- Embedding of `BankAccount` (the Standard variant and base class): holder name, signed
balance, append-only transaction history. -/
structure BankAccount where
  name : String
  balance : Rat
  transactions : List Transaction
deriving DecidableEq, Repr

/-- Embedding of `BankAccount.deposit`: `if amount > 0:` add to the balance and append a
`Deposit` transaction, `else` print a diagnostic and change nothing. -/
def BankAccount.deposit (acc : BankAccount) (amount : Rat) : BankAccount :=
  if 0 < amount then
    { acc with
        balance := acc.balance + amount
        transactions := acc.transactions ++ [⟨"Deposit", amount⟩] }
  else acc

/-- Embedding of `BankAccount.withdraw`: guard `amount > 0 and self.balance >= amount`;
on success subtract and append a `Withdrawal` transaction, else no change. -/
def BankAccount.withdraw (acc : BankAccount) (amount : Rat) : BankAccount :=
  if 0 < amount ∧ amount ≤ acc.balance then
    { acc with
        balance := acc.balance - amount
        transactions := acc.transactions ++ [⟨"Withdrawal", amount⟩] }
  else acc

/-- Embedding of `BankAccount.get_balance`. -/
def BankAccount.get_balance (acc : BankAccount) : Rat :=
  acc.balance

/-- One in-place mutation of the account object stored at position `k` of a
shared list; out-of-range indices leave the list unchanged (the source only
ever reaches this through references to objects that are in the list). -/
def updAt (k : Nat) (f : BankAccount → BankAccount) :
    List BankAccount → List BankAccount
  | [] => []
  | a :: rest =>
    match k with
    | 0 => f a :: rest
    | k' + 1 => a :: updAt k' f rest

/-- Embedding of `BankAccount.transfer` acting on a shared heap of accounts: the source is
`accs[i]`, the target `accs[j]`, and `i = j` is the aliased self-transfer the
workload generator can produce. Guard `self.balance >= amount and amount > 0`;
on success the four mutations of the source run in order: debit source, credit
target, append `Transfer Out` to source, append `Transfer In` to target. -/
def transferAt (accs : List BankAccount) (i j : Nat) (amount : Rat) :
    List BankAccount :=
  match accs[i]? with
  | none => accs
  | some src =>
    if amount ≤ src.balance ∧ 0 < amount then
      updAt j (fun a =>
          { a with transactions := a.transactions ++ [⟨"Transfer In", amount⟩] })
        (updAt i (fun a =>
            { a with transactions := a.transactions ++ [⟨"Transfer Out", amount⟩] })
          (updAt j (fun a => { a with balance := a.balance + amount })
            (updAt i (fun a => { a with balance := a.balance - amount }) accs)))
    else accs

/-- Embedding of `SavingsAccount(BankAccount)`: adds `interest_rate` (default 0.02 in the
source); `deposit`, `withdraw`, `transfer` are inherited. -/
structure SavingsAccount extends BankAccount where
  interest_rate : Rat
deriving DecidableEq, Repr

/-- Savings variant: `SavingsAccount.deposit` is the inherited `BankAccount.deposit`. -/
def SavingsAccount.deposit (s : SavingsAccount) (amount : Rat) : SavingsAccount :=
  { s with toBankAccount := s.toBankAccount.deposit amount }

/-- Embedding of `CheckingAccount(BankAccount)`: adds `overdraft_limit` (default 500) and
overrides `withdraw`; `deposit` and `transfer` are inherited. -/
structure CheckingAccount extends BankAccount where
  overdraft_limit : Rat
deriving DecidableEq, Repr

/-- Checking variant: `CheckingAccount.deposit` is the inherited `BankAccount.deposit`. -/
def CheckingAccount.deposit (c : CheckingAccount) (amount : Rat) : CheckingAccount :=
  { c with toBankAccount := c.toBankAccount.deposit amount }

/-- Embedding of `CheckingAccount.withdraw`: guard `self.balance + self.overdraft_limit >=
amount` (no positivity check on `amount`, unlike the base class); on success
subtract and append a `Withdrawal` transaction, else no change. -/
def CheckingAccount.withdraw (c : CheckingAccount) (amount : Rat) : CheckingAccount :=
  if amount ≤ c.balance + c.overdraft_limit then
    { c with
        balance := c.balance - amount
        transactions := c.transactions ++ [⟨"Withdrawal", amount⟩] }
  else c

/-- Embedding of `FixedDepositAccount(BankAccount)`: adds `term_years` and `interest_rate`;
the clock-derived `maturity_date` is omitted (no claim inspects it);
`deposit`, `withdraw`, `transfer` are inherited. -/
structure FixedDepositAccount extends BankAccount where
  term_years : Nat
  interest_rate : Rat
deriving DecidableEq, Repr

/-- FixedDeposit variant: `FixedDepositAccount.deposit` is the inherited `BankAccount.deposit`. -/
def FixedDepositAccount.deposit (f : FixedDepositAccount) (amount : Rat) :
    FixedDepositAccount :=
  { f with toBankAccount := f.toBankAccount.deposit amount }

/-- Embedding of `CreditCardAccount`: a separate class (not a `BankAccount` subclass) with
`limit` (default 5000), `balance` starting at 0 (balance = amount owed), and
its own history. -/
structure CreditCardAccount where
  name : String
  limit : Rat
  balance : Rat
  transactions : List Transaction
deriving DecidableEq, Repr

/-- Embedding of `CreditCardAccount.make_purchase`: guard `self.balance + amount <=
self.limit`; on success the balance (amount owed) increases. -/
def CreditCardAccount.make_purchase (c : CreditCardAccount) (amount : Rat) :
    CreditCardAccount :=
  if c.balance + amount ≤ c.limit then
    { c with
        balance := c.balance + amount
        transactions := c.transactions ++ [⟨"Purchase", amount⟩] }
  else c

/-- Embedding of `CreditCardAccount.make_payment`: guard `amount <= self.balance`; on
success the balance decreases. -/
def CreditCardAccount.make_payment (c : CreditCardAccount) (amount : Rat) :
    CreditCardAccount :=
  if amount ≤ c.balance then
    { c with
        balance := c.balance - amount
        transactions := c.transactions ++ [⟨"Payment", amount⟩] }
  else c

/-- Embedding of `CreditCardAccount.deposit`: `if amount > 0:` the balance DECREASES by
`amount` (the source's inverted sign convention — a deposit pays down the
owed balance) and a `Deposit` transaction is appended; else no change. -/
def CreditCardAccount.deposit (c : CreditCardAccount) (amount : Rat) :
    CreditCardAccount :=
  if 0 < amount then
    { c with
        balance := c.balance - amount
        transactions := c.transactions ++ [⟨"Deposit", amount⟩] }
  else c

/-- Embedding of `CreditCardAccount.withdraw` (cash advance): guard `self.balance + amount
<= self.limit`; on success the balance increases, mirroring a purchase. -/
def CreditCardAccount.withdraw (c : CreditCardAccount) (amount : Rat) :
    CreditCardAccount :=
  if c.balance + amount ≤ c.limit then
    { c with
        balance := c.balance + amount
        transactions := c.transactions ++ [⟨"Withdrawal", amount⟩] }
  else c

/-- Embedding of `LoanAccount.calculate_monthly_payment`, as a function of the constructor
arguments: `rate = interest_rate / 12`, `term_months = term_years * 12`,
result `loan_amount * rate / (1 - (1 + rate) ** -term_months)`. In Python
`0.0 ** -n` (n > 0) and `x / 0` both raise `ZeroDivisionError`; those two
paths are embedded as `none`. -/
def calculate_monthly_payment (loan_amount interest_rate : Rat)
    (term_years : Nat) : Option Rat :=
  let rate := interest_rate / 12
  let term_months := term_years * 12
  if 1 + rate = 0 ∧ 0 < term_months then none
  else
    let denom := 1 - ((1 + rate) ^ term_months)⁻¹
    if denom = 0 then none
    else some (loan_amount * rate / denom)

/-- Embedding of `LoanAccount`: payer back-reference (`account`), constructor arguments,
the `monthly_payment` computed once at construction, the mutable
`remaining_balance`, and the append-only `payment_history` (embedded as the
list of paid amounts; the clock-supplied timestamps are omitted). -/
structure LoanAccount where
  account : BankAccount
  loan_amount : Rat
  interest_rate : Rat
  term_years : Nat
  monthly_payment : Rat
  remaining_balance : Rat
  payment_history : List Rat
deriving DecidableEq, Repr

/-- Embedding of `LoanAccount.__init__`: computes `monthly_payment` (which can raise, hence
`Option`), sets `remaining_balance = loan_amount` and an empty history. -/
def mkLoanAccount (account : BankAccount) (loan_amount interest_rate : Rat)
    (term_years : Nat) : Option LoanAccount :=
  match calculate_monthly_payment loan_amount interest_rate term_years with
  | none => none
  | some mp =>
    some { account := account
           loan_amount := loan_amount
           interest_rate := interest_rate
           term_years := term_years
           monthly_payment := mp
           remaining_balance := loan_amount
           payment_history := [] }

/-- Embedding of `LoanAccount.make_payment`: guard `amount >= self.monthly_payment`; on
success `remaining_balance` drops by the full `amount` and one entry is
appended to the history; else a diagnostic and no change. -/
def LoanAccount.make_payment (loan : LoanAccount) (amount : Rat) : LoanAccount :=
  if loan.monthly_payment ≤ amount then
    { loan with
        remaining_balance := loan.remaining_balance - amount
        payment_history := loan.payment_history ++ [amount] }
  else loan

/-- Embedding of `LoanAccount.get_balance`. -/
def LoanAccount.get_balance (loan : LoanAccount) : Rat :=
  loan.remaining_balance

/-- Embedding of `Customer`: name, one bank account, optional loan. -/
structure Customer where
  name : String
  bank_account : BankAccount
  loan_account : Option LoanAccount
deriving DecidableEq, Repr

/-- Embedding of `Customer.apply_for_loan`: `if loan_amount > 0:` construct a new
`LoanAccount` bound to the customer's account (the constructor can raise,
hence `Option`), replacing any existing loan reference; else a diagnostic and
no change. -/
def Customer.apply_for_loan (c : Customer) (loan_amount interest_rate : Rat)
    (term_years : Nat) : Option Customer :=
  if 0 < loan_amount then
    match mkLoanAccount c.bank_account loan_amount interest_rate term_years with
    | none => none
    | some la => some { c with loan_account := some la }
  else some c

/-- Embedding of `Bank`: name plus the accumulating registries. The registries are
multisets with no removal, embedded as lists in insertion order. -/
structure Bank where
  bank_name : String
  accounts : List BankAccount
  loans : List LoanAccount
  customers : List Customer
deriving DecidableEq, Repr

/-- Embedding of `Bank.add_account`. -/
def Bank.add_account (b : Bank) (acc : BankAccount) : Bank :=
  { b with accounts := b.accounts ++ [acc] }

/-- Embedding of `Bank.add_customer`: registers the customer, their account, and — only if
one exists at this moment — their loan. -/
def Bank.add_customer (b : Bank) (c : Customer) : Bank :=
  { b with
      customers := b.customers ++ [c]
      accounts := b.accounts ++ [c.bank_account]
      loans :=
        match c.loan_account with
        | some l => b.loans ++ [l]
        | none => b.loans }

/-- The registry-shaping operations a driver can perform on a `Bank`:
registering an account, registering a customer, and a registered customer
(named by its index, modelling the Python reference into `bank.customers`)
applying for a loan. -/
inductive BankOp where
  | addAccount (acc : BankAccount)
  | addCustomer (c : Customer)
  | applyForLoan (i : Nat) (loan_amount interest_rate : Rat) (term_years : Nat)
deriving DecidableEq, Repr

/-- One driver step on a `Bank`. `applyForLoan i` mutates the customer object
at index `i` in place (the `Bank` holds a reference to the same object, so
the update is visible through `bank.customers`); note that the freshly built
loan is NOT appended to `bank.loans` — the source's `apply_for_loan` never
talks to the bank. `none` models the loan constructor raising. -/
def Bank.step (b : Bank) : BankOp → Option Bank
  | .addAccount acc => some (b.add_account acc)
  | .addCustomer c => some (b.add_customer c)
  | .applyForLoan i loan_amount interest_rate term_years =>
    match b.customers[i]? with
    | none => some b
    | some c =>
      match c.apply_for_loan loan_amount interest_rate term_years with
      | none => none
      | some c' => some { b with customers := b.customers.set i c' }

/-- Run a list of driver steps; `none` as soon as one raises. -/
def Bank.run (b : Bank) : List BankOp → Option Bank
  | [] => some b
  | op :: ops =>
    match b.step op with
    | none => none
    | some b' => Bank.run b' ops

/-- The registration invariant claimed by the spec, account half: every
registered customer's account is in the bank's account registry. -/
def accountInvariant (b : Bank) : Prop :=
  ∀ c ∈ b.customers, c.bank_account ∈ b.accounts

/-- Embedding of `Bank.loan_risk_assessment`, on the loan registry: for each loan in order,
`risk = loan.get_balance() / loan.account.get_balance()`, collecting
`(payer name, loan balance, risk)` for every loan with `risk > 0.75`. A payer
balance of 0 makes the division raise `ZeroDivisionError` (embedded as
`none`: the exception is unhandled, so the whole assessment — and the run —
aborts). -/
def loan_risk_assessment : List LoanAccount → Option (List (String × Rat × Rat))
  | [] => some []
  | loan :: rest =>
    if loan.account.balance = 0 then none
    else
      let risk := loan.remaining_balance / loan.account.balance
      match loan_risk_assessment rest with
      | none => none
      | some flagged =>
        some (if (0.75 : Rat) < risk then
                (loan.account.name, loan.remaining_balance, risk) :: flagged
              else flagged)

/-! ### Helper lemmas about in-place updates through the shared account list -/

theorem updAt_getElem_self (f : BankAccount → BankAccount) :
    ∀ (l : List BankAccount) (k : Nat), (updAt k f l)[k]? = Option.map f l[k]?
  | [], k => by cases k <;> simp [updAt]
  | a :: rest, 0 => by simp [updAt]
  | a :: rest, k + 1 => by simpa [updAt] using updAt_getElem_self f rest k

theorem updAt_getElem_ne (f : BankAccount → BankAccount) :
    ∀ (l : List BankAccount) (k m : Nat), m ≠ k → (updAt k f l)[m]? = l[m]?
  | [], k, m, _ => by cases k <;> simp [updAt]
  | a :: rest, 0, 0, h => absurd rfl h
  | a :: rest, 0, m + 1, _ => by simp [updAt]
  | a :: rest, k + 1, 0, _ => by simp [updAt]
  | a :: rest, k + 1, m + 1, h => by
    simpa [updAt] using updAt_getElem_ne f rest k m (fun hh => h (by omega))

/-! ### Concrete inputs used by the claim theorems and witnesses -/

/-- A payer account with balance 1000, as in the spec's risk example. -/
def alicePayer : BankAccount := ⟨"Alice", 1000, []⟩

/-- A payer account with balance 2000, the spec's non-flagged risk example. -/
def bobPayer : BankAccount := ⟨"Bob", 2000, []⟩

/-- A payer account whose balance is 0 (the default starting balance of a
`BankAccount` in the source). -/
def zedPayer : BankAccount := ⟨"Zed", 0, []⟩

/-- Loan with remaining balance 800 against payer balance 1000 (risk 0.8). -/
def loanRisky : LoanAccount := ⟨alicePayer, 1000, 1/20, 10, 50, 800, []⟩

/-- Loan with remaining balance 800 against payer balance 2000 (risk 0.4). -/
def loanSafe : LoanAccount := ⟨bobPayer, 1000, 1/20, 10, 50, 800, []⟩

/-- Loan whose payer's balance is 0: the risk division raises. -/
def loanZero : LoanAccount := ⟨zedPayer, 1000, 1/20, 10, 50, 800, []⟩

/-! ### Claims C1 and C2: the two division-by-zero sites -/

/-- C1. `loan_risk_assessment` does compute `risk = loan.get_balance() /
loan.account.get_balance()` and flags exactly the loans with risk > 0.75
(spec's 800/1000 example flagged, 800/2000 example not flagged) — but when
some payer's account balance is zero the division raises an unhandled
`ZeroDivisionError` (`none`): the assessment aborts the run instead of being
the defined, recoverable failure the claim requires, even wiping flags the
loop had already collected. -/
theorem c1_risk_assessment_crashes_on_zero_payer_balance :
    loan_risk_assessment [loanRisky] = some [("Alice", 800, 4/5)] ∧
    loan_risk_assessment [loanSafe] = some [] ∧
    loan_risk_assessment [loanRisky, loanZero] = none := by
  refine ⟨?_, ?_, ?_⟩ <;>
    norm_num [loan_risk_assessment, loanRisky, loanSafe, loanZero,
      alicePayer, bobPayer, zedPayer]

/-- C2. `calculate_monthly_payment` at annual rate 0 does NOT fall back to
`principal / (term_years * 12)`: the closed-form denominator
`1 - (1 + 0) ** -term_months` is zero, so the division raises
`ZeroDivisionError` (`none`) inside the `LoanAccount` constructor. -/
theorem c2_monthly_payment_crashes_at_rate_zero :
    calculate_monthly_payment 100000 0 15 = none ∧
    mkLoanAccount alicePayer 100000 0 15 = none := by
  have h : calculate_monthly_payment 100000 0 15 = none := by
    norm_num [calculate_monthly_payment]
  exact ⟨h, by rw [mkLoanAccount, h]⟩

/-! ### Claim C5: transfer conservation between distinct accounts -/

/-- C5. For a transfer of `amount` from `accs[i]` to a distinct `accs[j]`
satisfying the guard (`amount > 0` and source balance ≥ amount): the source
ends with its balance debited and exactly one new `Transfer Out` transaction,
the target ends with its balance credited and exactly one new `Transfer In`
transaction, and the two balances sum to what they summed to before. -/
theorem c5_transfer_conservation (accs : List BankAccount) (i j : Nat)
    (amount : Rat) (si tj : BankAccount)
    (hij : i ≠ j) (hi : accs[i]? = some si) (hj : accs[j]? = some tj)
    (hbal : amount ≤ si.balance) (hpos : 0 < amount) :
    (transferAt accs i j amount)[i]? =
      some { si with
               balance := si.balance - amount
               transactions := si.transactions ++ [⟨"Transfer Out", amount⟩] } ∧
    (transferAt accs i j amount)[j]? =
      some { tj with
               balance := tj.balance + amount
               transactions := tj.transactions ++ [⟨"Transfer In", amount⟩] } ∧
    (si.balance - amount) + (tj.balance + amount) = si.balance + tj.balance := by
  have ht : transferAt accs i j amount =
      updAt j (fun a =>
          { a with transactions := a.transactions ++ [⟨"Transfer In", amount⟩] })
        (updAt i (fun a =>
            { a with transactions := a.transactions ++ [⟨"Transfer Out", amount⟩] })
          (updAt j (fun a => { a with balance := a.balance + amount })
            (updAt i (fun a => { a with balance := a.balance - amount }) accs))) := by
    simp only [transferAt, hi, if_pos (And.intro hbal hpos)]
  refine ⟨?_, ?_, by ring⟩
  · rw [ht, updAt_getElem_ne _ _ j i hij, updAt_getElem_self,
      updAt_getElem_ne _ _ j i hij, updAt_getElem_self, hi]
    rfl
  · rw [ht, updAt_getElem_self, updAt_getElem_ne _ _ i j (Ne.symm hij),
      updAt_getElem_self, updAt_getElem_ne _ _ i j (Ne.symm hij), hj]
    rfl

/-- Source account of the concrete transfer used by the C5 witness. -/
def srcPre : BankAccount := ⟨"A", 100, []⟩

/-- Target account of the concrete transfer used by the C5 witness. -/
def tgtPre : BankAccount := ⟨"B", 50, []⟩

/-- The two-account ledger used by the C5 witness. -/
def ledgerPre : List BankAccount := [srcPre, tgtPre]

/-- C5 witness: the theorem at the concrete transfer of 30 from `srcPre`
(balance 100) to `tgtPre` (balance 50). -/
theorem c5_transfer_conservation_witness :
    (transferAt ledgerPre 0 1 30)[0]? =
      some { srcPre with
               balance := srcPre.balance - 30
               transactions := srcPre.transactions ++ [⟨"Transfer Out", 30⟩] } ∧
    (transferAt ledgerPre 0 1 30)[1]? =
      some { tgtPre with
               balance := tgtPre.balance + 30
               transactions := tgtPre.transactions ++ [⟨"Transfer In", 30⟩] } ∧
    (srcPre.balance - 30) + (tgtPre.balance + 30) = srcPre.balance + tgtPre.balance :=
  c5_transfer_conservation ledgerPre 0 1 30 srcPre tgtPre
    (by decide) (by decide) (by decide) (by decide) (by decide)

/-! ### Claim C9: the aliased self-transfer -/

/-- C9. A self-transfer (`transfer(amount, X)` on `X` itself, `i = j`) under
the ordinary guard succeeds — the debit and credit hit the same object, so the
balance is unchanged, and the history gains the `Transfer Out` followed by the
`Transfer In` record. -/
theorem c9_self_transfer (accs : List BankAccount) (i : Nat) (amount : Rat)
    (si : BankAccount) (hi : accs[i]? = some si)
    (hpos : 0 < amount) (hbal : amount ≤ si.balance) :
    (transferAt accs i i amount)[i]? =
      some { si with
               transactions := si.transactions ++
                 [⟨"Transfer Out", amount⟩, ⟨"Transfer In", amount⟩] } := by
  have ht : transferAt accs i i amount =
      updAt i (fun a =>
          { a with transactions := a.transactions ++ [⟨"Transfer In", amount⟩] })
        (updAt i (fun a =>
            { a with transactions := a.transactions ++ [⟨"Transfer Out", amount⟩] })
          (updAt i (fun a => { a with balance := a.balance + amount })
            (updAt i (fun a => { a with balance := a.balance - amount }) accs))) := by
    simp only [transferAt, hi, if_pos (And.intro hbal hpos)]
  rw [ht, updAt_getElem_self, updAt_getElem_self, updAt_getElem_self,
    updAt_getElem_self, hi]
  simp

/-- C9 witness: a self-transfer of 30 on the account at index 0 of the
concrete ledger leaves its balance at 100 and appends both transfer records. -/
theorem c9_self_transfer_witness :
    (transferAt ledgerPre 0 0 30)[0]? =
      some { srcPre with
               transactions := srcPre.transactions ++
                 [⟨"Transfer Out", 30⟩, ⟨"Transfer In", 30⟩] } :=
  c9_self_transfer ledgerPre 0 30 srcPre (by decide) (by decide) (by decide)

/-! ### Claim C4: deposit across the variants -/

/-- A credit card as the source constructs it: limit 5000, balance 0. -/
def frankCard : CreditCardAccount := ⟨"Frank", 5000, 0, []⟩

/-- C4 counterexample: the claim quantifies over every account variant, but on
a `CreditCardAccount` a deposit of 40 yields balance −40, not 0 + 40 — the
inverted sign convention contradicts `new_balance = old_balance + a`. -/
theorem c4_counterexample :
    ¬ (CreditCardAccount.deposit frankCard 40).balance =
        frankCard.balance + 40 := by
  norm_num [CreditCardAccount.deposit, frankCard]

/-- C4 (amended). For the four `BankAccount`-based variants (Standard,
Savings, Checking, FixedDeposit — they share the inherited `deposit`),
`deposit(a)` with a > 0 adds `a` to the balance and appends `Deposit(a)` as
the last history entry, and with a ≤ 0 is a no-op; for the CreditCard variant
a ≤ 0 is likewise a no-op, but a > 0 SUBTRACTS `a` from the balance (while
still appending `Deposit(a)` last). -/
theorem c4_deposit_amended :
    (∀ (acc : BankAccount) (a : Rat), 0 < a →
        (acc.deposit a).balance = acc.balance + a ∧
        (acc.deposit a).transactions = acc.transactions ++ [⟨"Deposit", a⟩]) ∧
    (∀ (acc : BankAccount) (a : Rat), a ≤ 0 → acc.deposit a = acc) ∧
    (∀ (s : SavingsAccount) (a : Rat), 0 < a →
        (s.deposit a).balance = s.balance + a ∧
        (s.deposit a).transactions = s.transactions ++ [⟨"Deposit", a⟩]) ∧
    (∀ (s : SavingsAccount) (a : Rat), a ≤ 0 → s.deposit a = s) ∧
    (∀ (c : CheckingAccount) (a : Rat), 0 < a →
        (c.deposit a).balance = c.balance + a ∧
        (c.deposit a).transactions = c.transactions ++ [⟨"Deposit", a⟩]) ∧
    (∀ (c : CheckingAccount) (a : Rat), a ≤ 0 → c.deposit a = c) ∧
    (∀ (f : FixedDepositAccount) (a : Rat), 0 < a →
        (f.deposit a).balance = f.balance + a ∧
        (f.deposit a).transactions = f.transactions ++ [⟨"Deposit", a⟩]) ∧
    (∀ (f : FixedDepositAccount) (a : Rat), a ≤ 0 → f.deposit a = f) ∧
    (∀ (cc : CreditCardAccount) (a : Rat), 0 < a →
        (cc.deposit a).balance = cc.balance - a ∧
        (cc.deposit a).transactions = cc.transactions ++ [⟨"Deposit", a⟩]) ∧
    (∀ (cc : CreditCardAccount) (a : Rat), a ≤ 0 → cc.deposit a = cc) := by
  have hpos : ∀ (acc : BankAccount) (a : Rat), 0 < a →
      (acc.deposit a).balance = acc.balance + a ∧
      (acc.deposit a).transactions = acc.transactions ++ [⟨"Deposit", a⟩] := by
    intro acc a h
    simp [BankAccount.deposit, h]
  have hneg : ∀ (acc : BankAccount) (a : Rat), a ≤ 0 → acc.deposit a = acc := by
    intro acc a h
    simp [BankAccount.deposit, not_lt.mpr h]
  refine ⟨hpos, hneg, ?_, ?_, ?_, ?_, ?_, ?_, ?_, ?_⟩
  · intro s a h
    simpa [SavingsAccount.deposit] using hpos s.toBankAccount a h
  · intro s a h
    simp [SavingsAccount.deposit, hneg s.toBankAccount a h]
  · intro c a h
    simpa [CheckingAccount.deposit] using hpos c.toBankAccount a h
  · intro c a h
    simp [CheckingAccount.deposit, hneg c.toBankAccount a h]
  · intro f a h
    simpa [FixedDepositAccount.deposit] using hpos f.toBankAccount a h
  · intro f a h
    simp [FixedDepositAccount.deposit, hneg f.toBankAccount a h]
  · intro cc a h
    simp [CreditCardAccount.deposit, h]
  · intro cc a h
    simp [CreditCardAccount.deposit, not_lt.mpr h]

/-- C4 witness: the amended theorem at concrete inputs — a Standard account
with balance 100 after `deposit 40`, and the Frank credit card after
`deposit 40`. -/
theorem c4_deposit_amended_witness :
    ((0:Rat) < 40 ∧
      ((BankAccount.deposit srcPre 40).balance = srcPre.balance + 40 ∧
       (BankAccount.deposit srcPre 40).transactions =
         srcPre.transactions ++ [⟨"Deposit", 40⟩])) ∧
    ((CreditCardAccount.deposit frankCard 40).balance = frankCard.balance - 40 ∧
     (CreditCardAccount.deposit frankCard 40).transactions =
       frankCard.transactions ++ [⟨"Deposit", 40⟩]) :=
  ⟨⟨by decide, c4_deposit_amended.1 srcPre 40 (by decide)⟩,
    c4_deposit_amended.2.2.2.2.2.2.2.2.1 frankCard 40 (by decide)⟩

/-! ### Claim C7: the credit-card sign convention -/

/-- C7. On the source's balance-0, limit-5000 card, `make_purchase(100)` gives
balance 100 and a following `deposit(40)` gives balance 60; in general a
positive deposit on any credit card lowers the balance by exactly the
deposited amount (the inverted sign convention). -/
theorem c7_credit_card_sign_convention :
    ((frankCard.make_purchase 100).balance = 100 ∧
     ((frankCard.make_purchase 100).deposit 40).balance = 60) ∧
    (∀ (cc : CreditCardAccount) (a : Rat), 0 < a →
        (cc.deposit a).balance = cc.balance - a ∧
        (cc.deposit a).balance < cc.balance) := by
  refine ⟨⟨?_, ?_⟩, fun cc a h => ⟨?_, ?_⟩⟩
  · norm_num [frankCard, CreditCardAccount.make_purchase]
  · norm_num [frankCard, CreditCardAccount.make_purchase, CreditCardAccount.deposit]
  · simp [CreditCardAccount.deposit, h]
  · simp only [CreditCardAccount.deposit, if_pos h]
    simpa using h

/-- C7 witness: the universally quantified half of the theorem applied to the
Frank card with deposit amount 40. -/
theorem c7_credit_card_sign_convention_witness :
    (0:Rat) < 40 ∧
    ((frankCard.deposit 40).balance = frankCard.balance - 40 ∧
     (frankCard.deposit 40).balance < frankCard.balance) :=
  ⟨by decide, c7_credit_card_sign_convention.2 frankCard 40 (by decide)⟩

/-! ### Claim C8: loan payments -/

/-- C8. `make_payment(amount)` with amount < monthly_payment leaves both the
remaining balance and the payment history untouched; with amount ≥
monthly_payment it lowers the remaining balance by exactly `amount` and
appends exactly one history entry for `amount`. -/
theorem c8_loan_make_payment (loan : LoanAccount) (amount : Rat) :
    (amount < loan.monthly_payment →
      (loan.make_payment amount).remaining_balance = loan.remaining_balance ∧
      (loan.make_payment amount).payment_history = loan.payment_history) ∧
    (loan.monthly_payment ≤ amount →
      (loan.make_payment amount).remaining_balance =
        loan.remaining_balance - amount ∧
      (loan.make_payment amount).payment_history =
        loan.payment_history ++ [amount]) := by
  constructor
  · intro h
    simp [LoanAccount.make_payment, not_le.mpr h]
  · intro h
    simp [LoanAccount.make_payment, h]

/-- C8 witness: the theorem at the concrete risky loan (monthly payment 50):
a payment of 30 changes nothing, a payment of 200 lowers the remaining
balance from 800 to 600 and appends the single entry 200. -/
theorem c8_loan_make_payment_witness :
    ((loanRisky.make_payment 30).remaining_balance = loanRisky.remaining_balance ∧
     (loanRisky.make_payment 30).payment_history = loanRisky.payment_history) ∧
    ((loanRisky.make_payment 200).remaining_balance =
        loanRisky.remaining_balance - 200 ∧
     (loanRisky.make_payment 200).payment_history =
        loanRisky.payment_history ++ [200]) :=
  ⟨(c8_loan_make_payment loanRisky 30).1 (by decide),
   (c8_loan_make_payment loanRisky 200).2 (by decide)⟩

/-! ### Claim C10: CheckingAccount.withdraw has no positivity guard -/

/-- C10. On a checking account whose balance is at least −overdraft_limit, a
withdrawal of a non-positive amount is NOT rejected: the guard
`balance + overdraft_limit >= amount` holds trivially, the balance becomes
`balance − amount` (an increase by `−amount`) and a `Withdrawal` transaction
is appended — the override performs no positivity check, unlike
`BankAccount.withdraw`. -/
theorem c10_checking_withdraw_nonpositive (c : CheckingAccount) (a : Rat)
    (ha : a ≤ 0) (hbal : -c.overdraft_limit ≤ c.balance) :
    (c.withdraw a).balance = c.balance - a ∧
    (c.withdraw a).transactions = c.transactions ++ [⟨"Withdrawal", a⟩] := by
  have hg : a ≤ c.balance + c.overdraft_limit := by linarith
  simp [CheckingAccount.withdraw, hg]

/-- A checking account with balance 200 and overdraft limit 500. -/
def daveChecking : CheckingAccount := ⟨⟨"Dave", 200, []⟩, 500⟩

/-- C10 witness: withdrawing −25 from the concrete checking account raises its
balance to 225 and still logs a `Withdrawal` transaction. -/
theorem c10_checking_withdraw_nonpositive_witness :
    (daveChecking.withdraw (-25)).balance = daveChecking.balance - (-25) ∧
    (daveChecking.withdraw (-25)).transactions =
      daveChecking.transactions ++ [⟨"Withdrawal", -25⟩] :=
  c10_checking_withdraw_nonpositive daveChecking (-25) (by decide) (by decide)

/-! ### Claim C3: the registration invariant -/

/-- The embedded `apply_for_loan` only ever rebinds the loan reference: the customer's
bank account is untouched. -/
theorem apply_for_loan_bank_account {c c' : Customer} {la ir : Rat} {ty : Nat}
    (h : c.apply_for_loan la ir ty = some c') :
    c'.bank_account = c.bank_account := by
  unfold Customer.apply_for_loan at h
  split at h
  · cases hm : mkLoanAccount c.bank_account la ir ty with
    | none => rw [hm] at h; cases h
    | some l => rw [hm] at h; cases h; rfl
  · cases h; rfl

/-- Each driver step keeps every registered customer's account inside the
bank's account registry. -/
theorem step_preserves_accountInvariant {b b' : Bank} {op : BankOp}
    (hinv : accountInvariant b) (h : b.step op = some b') :
    accountInvariant b' := by
  cases op with
  | addAccount acc =>
    simp only [Bank.step, Option.some.injEq] at h
    subst h
    intro c hc
    exact List.mem_append_left _ (hinv c hc)
  | addCustomer c0 =>
    simp only [Bank.step, Option.some.injEq] at h
    subst h
    intro c hc
    rcases List.mem_append.mp hc with h1 | h1
    · exact List.mem_append_left _ (hinv c h1)
    · rcases List.mem_singleton.mp h1 with rfl
      exact List.mem_append_right _ (List.mem_singleton_self _)
  | applyForLoan i la ir ty =>
    simp only [Bank.step] at h
    cases hci : b.customers[i]? with
    | none =>
      simp only [hci, Option.some.injEq] at h
      subst h
      exact hinv
    | some c0 =>
      simp only [hci] at h
      cases happ : c0.apply_for_loan la ir ty with
      | none =>
        simp only [happ] at h
        exact Option.noConfusion h
      | some c0' =>
        simp only [happ, Option.some.injEq] at h
        subst h
        intro c hc
        rcases List.mem_or_eq_of_mem_set hc with h1 | rfl
        · exact hinv c h1
        · rw [apply_for_loan_bank_account happ]
          exact hinv c0 (List.getElem?_mem hci)

/-- Account-invariant preservation along a whole run. -/
theorem run_preserves_accountInvariant :
    ∀ (ops : List BankOp) (b₀ b : Bank),
      accountInvariant b₀ → Bank.run b₀ ops = some b → accountInvariant b
  | [], b₀, b, hinv, h => by
    simp only [Bank.run, Option.some.injEq] at h
    subst h
    exact hinv
  | op :: ops, b₀, b, hinv, h => by
    rw [Bank.run] at h
    cases hs : b₀.step op with
    | none =>
      simp only [hs] at h
      exact Option.noConfusion h
    | some b₁ =>
      simp only [hs] at h
      exact run_preserves_accountInvariant ops b₁ b
        (step_preserves_accountInvariant hinv hs) h

/-- The bank driving the C3 scenario: freshly constructed, empty registries. -/
def bank0 : Bank := ⟨"Greatest Bank", [], [], []⟩

/-- The account of the customer in the C3 scenario. -/
def aliceAccount : BankAccount := ⟨"Alice", 1000, []⟩

/-- A customer registered before applying for any loan. -/
def aliceCustomer : Customer := ⟨"Alice", aliceAccount, none⟩

/-- The C3 scenario: register the customer (no loan yet), then have the
registered customer apply for a loan of 1200 at annual rate 12 over 1 year. -/
def scenarioOps : List BankOp :=
  [BankOp.addCustomer aliceCustomer, BankOp.applyForLoan 0 1200 12 1]

/-- The loan the scenario's application constructs: monthly rate 1, 12
months, so monthly payment 1200 / (1 - 2 ^ (-12)) = 327680 / 273. -/
def loanA : LoanAccount := ⟨aliceAccount, 1200, 12, 1, 327680 / 273, 1200, []⟩

/-- The customer object after the loan application mutated it in place. -/
def aliceWithLoan : Customer := ⟨"Alice", aliceAccount, some loanA⟩

/-- The bank state the C3 scenario ends in: the customer now holds `loanA`,
but the bank's loan registry is still empty. -/
def bank1 : Bank := ⟨"Greatest Bank", [aliceAccount], [], [aliceWithLoan]⟩

/-- The scenario's loan construction, evaluated. -/
theorem mkLoanAccount_scenario :
    mkLoanAccount aliceAccount 1200 12 1 = some loanA := by
  have h : calculate_monthly_payment 1200 12 1 = some (327680 / 273) := by
    norm_num [calculate_monthly_payment]
  rw [mkLoanAccount, h]
  rfl

/-- The scenario's loan application, evaluated. -/
theorem apply_for_loan_scenario :
    aliceCustomer.apply_for_loan 1200 12 1 = some aliceWithLoan := by
  unfold Customer.apply_for_loan
  have hacct : aliceCustomer.bank_account = aliceAccount := rfl
  rw [hacct, mkLoanAccount_scenario, if_pos (by norm_num)]
  rfl

/-- The whole C3 scenario run, evaluated. -/
theorem run_scenario : Bank.run bank0 scenarioOps = some bank1 := by
  have h2 : (⟨"Greatest Bank", [aliceAccount], [], [aliceCustomer]⟩ : Bank).step
      (BankOp.applyForLoan 0 1200 12 1) = some bank1 := by
    simp only [Bank.step]
    have hc0 : (⟨"Greatest Bank", [aliceAccount], [], [aliceCustomer]⟩ :
        Bank).customers[0]? = some aliceCustomer := rfl
    simp only [hc0, apply_for_loan_scenario]
    rfl
  show Bank.run bank0 [BankOp.addCustomer aliceCustomer,
    BankOp.applyForLoan 0 1200 12 1] = some bank1
  rw [Bank.run]
  have h1 : bank0.step (BankOp.addCustomer aliceCustomer) =
      some ⟨"Greatest Bank", [aliceAccount], [], [aliceCustomer]⟩ := rfl
  simp only [h1]
  rw [Bank.run]
  simp only [h2]
  rfl

/-- C3 counterexample: after registering a loan-less customer and having the
registered customer apply for a loan, the run succeeds and the customer in
the bank's registry holds `loanA` — but `loanA` is not in the bank's loan
registry, which is still empty. -/
theorem c3_counterexample :
    Bank.run bank0 scenarioOps = some bank1 ∧
    aliceWithLoan ∈ bank1.customers ∧
    aliceWithLoan.loan_account = some loanA ∧
    loanA ∉ bank1.loans := by
  refine ⟨run_scenario, ?_, rfl, ?_⟩
  · simp [bank1]
  · simp [bank1]

/-- C3 (amended). The account half of the invariant does hold: along any run
of registry operations every registered customer's account stays in the
bank's account registry; and a loan already bound to a customer when
`add_customer` runs is registered in the bank's loan registry. But a loan
created by `apply_for_loan` after registration is NOT added: that step leaves
the bank's loan registry exactly as it was. -/
theorem c3_registration_invariant_amended :
    (∀ (ops : List BankOp) (b₀ b : Bank),
        accountInvariant b₀ → Bank.run b₀ ops = some b → accountInvariant b) ∧
    (∀ (b : Bank) (c : Customer) (l : LoanAccount),
        c.loan_account = some l → l ∈ (b.add_customer c).loans) ∧
    (∀ (b b' : Bank) (i : Nat) (la ir : Rat) (ty : Nat),
        b.step (BankOp.applyForLoan i la ir ty) = some b' →
        b'.loans = b.loans) := by
  refine ⟨run_preserves_accountInvariant, ?_, ?_⟩
  · intro b c l hl
    simp [Bank.add_customer, hl]
  · intro b b' i la ir ty h
    simp only [Bank.step] at h
    cases hci : b.customers[i]? with
    | none =>
      simp only [hci, Option.some.injEq] at h
      subst h
      rfl
    | some c0 =>
      simp only [hci] at h
      cases happ : c0.apply_for_loan la ir ty with
      | none =>
        simp only [happ] at h
        exact Option.noConfusion h
      | some c0' =>
        simp only [happ, Option.some.injEq] at h
        subst h
        rfl

/-- C3 witness: the amended theorem's account half applied to the concrete
scenario — after the run, the (mutated) registered customer's account is in
the bank's account registry. -/
theorem c3_registration_invariant_amended_witness :
    aliceWithLoan.bank_account ∈ bank1.accounts :=
  c3_registration_invariant_amended.1 scenarioOps bank0 bank1
    (by intro c hc; simp [bank0] at hc)
    run_scenario
    aliceWithLoan
    (by simp [bank1])

/-! ### Claim C6: CheckingAccount withdrawal rule and the overdraft bound -/

/-- The balance-changing operations a `CheckingAccount` can undergo in the
source: its inherited `deposit`, its overridden `withdraw`, the debit leg of
its inherited `transfer`, and the credit leg of some other account's
`transfer` that targets it. -/
inductive CheckingOp where
  | dep (amount : Rat)
  | wd (amount : Rat)
  | xferOut (amount : Rat)
  | xferIn (amount : Rat)
deriving DecidableEq, Repr

/-- Apply one operation. `xferOut` is `BankAccount.transfer`'s effect on the
source (guard `balance >= amount and amount > 0`, then debit and a
`Transfer Out` record); `xferIn` is the unconditional credit applied to the
target of a transfer whose guard already passed at the source. -/
def CheckingAccount.applyOp (c : CheckingAccount) : CheckingOp → CheckingAccount
  | .dep a => c.deposit a
  | .wd a => c.withdraw a
  | .xferOut a =>
    if a ≤ c.balance ∧ 0 < a then
      { c with
          balance := c.balance - a
          transactions := c.transactions ++ [⟨"Transfer Out", a⟩] }
    else c
  | .xferIn a =>
    { c with
        balance := c.balance + a
        transactions := c.transactions ++ [⟨"Transfer In", a⟩] }

/-- Apply a sequence of operations, oldest first. -/
def CheckingAccount.applyOps (c : CheckingAccount) :
    List CheckingOp → CheckingAccount
  | [] => c
  | op :: ops => (c.applyOp op).applyOps ops

/-- A `xferIn` only ever arises from a transfer whose source guard passed, so
its amount is positive; the other operations carry their own guards. -/
def CheckingOp.fromValidTransfer : CheckingOp → Bool
  | .xferIn a => decide (0 < a)
  | _ => true

/-- No operation touches the overdraft limit. -/
theorem applyOp_overdraft_limit (c : CheckingAccount) (op : CheckingOp) :
    (c.applyOp op).overdraft_limit = c.overdraft_limit := by
  cases op with
  | dep a =>
    show (c.deposit a).overdraft_limit = c.overdraft_limit
    unfold CheckingAccount.deposit
    rfl
  | wd a =>
    show (c.withdraw a).overdraft_limit = c.overdraft_limit
    unfold CheckingAccount.withdraw
    split <;> rfl
  | xferOut a =>
    show (if a ≤ c.balance ∧ 0 < a then
        { c with
            balance := c.balance - a
            transactions := c.transactions ++ [⟨"Transfer Out", a⟩] }
      else c).overdraft_limit = c.overdraft_limit
    split <;> rfl
  | xferIn a => rfl

/-- One valid operation keeps the balance at or above −overdraft_limit. -/
theorem applyOp_balance_bound {c : CheckingAccount} {op : CheckingOp}
    (hod : 0 ≤ c.overdraft_limit) (hbal : -c.overdraft_limit ≤ c.balance)
    (hvalid : op.fromValidTransfer = true) :
    -c.overdraft_limit ≤ (c.applyOp op).balance := by
  cases op with
  | dep a =>
    show -c.overdraft_limit ≤ (c.deposit a).balance
    by_cases h : 0 < a
    · have he : (c.deposit a).balance = c.balance + a := by
        simp [CheckingAccount.deposit, BankAccount.deposit, h]
      rw [he]
      linarith
    · have he : (c.deposit a).balance = c.balance := by
        simp [CheckingAccount.deposit, BankAccount.deposit, h]
      rw [he]
      exact hbal
  | wd a =>
    show -c.overdraft_limit ≤ (c.withdraw a).balance
    by_cases h : a ≤ c.balance + c.overdraft_limit
    · have he : (c.withdraw a).balance = c.balance - a := by
        simp [CheckingAccount.withdraw, h]
      rw [he]
      linarith
    · have he : (c.withdraw a).balance = c.balance := by
        simp [CheckingAccount.withdraw, h]
      rw [he]
      exact hbal
  | xferOut a =>
    by_cases h : a ≤ c.balance ∧ 0 < a
    · have he : (c.applyOp (CheckingOp.xferOut a)).balance = c.balance - a := by
        simp [CheckingAccount.applyOp, h]
      rw [he]
      have := h.1
      linarith
    · have he : (c.applyOp (CheckingOp.xferOut a)).balance = c.balance := by
        simp [CheckingAccount.applyOp, h]
      rw [he]
      exact hbal
  | xferIn a =>
    have ha : 0 < a := of_decide_eq_true hvalid
    show -c.overdraft_limit ≤ c.balance + a
    linarith

/-- A whole sequence of valid operations keeps the balance at or above
−overdraft_limit (starting from a non-negative overdraft limit, which the
data model guarantees). -/
theorem applyOps_balance_bound :
    ∀ (ops : List CheckingOp) (c : CheckingAccount),
      0 ≤ c.overdraft_limit → -c.overdraft_limit ≤ c.balance →
      (∀ op ∈ ops, op.fromValidTransfer = true) →
      -(c.applyOps ops).overdraft_limit ≤ (c.applyOps ops).balance
  | [], c, _, hbal, _ => hbal
  | op :: ops, c, hod, hbal, hv => by
    rw [CheckingAccount.applyOps]
    have h1 := applyOp_balance_bound hod hbal (hv op (List.mem_cons_self op ops))
    refine applyOps_balance_bound ops (c.applyOp op) ?_ ?_ ?_
    · rw [applyOp_overdraft_limit]
      exact hod
    · rw [applyOp_overdraft_limit]
      exact h1
    · intro o ho
      exact hv o (List.mem_cons_of_mem _ ho)

/-- C6. `CheckingAccount.withdraw a` succeeds (balance decreases by `a` and a
`Withdrawal` transaction is appended) exactly when
`a ≤ balance + overdraft_limit`; and from any state with a non-negative
overdraft limit and balance ≥ −overdraft_limit, no sequence of the account's
operations drives the balance below −overdraft_limit. -/
theorem c6_checking_withdraw_and_overdraft_bound :
    (∀ (c : CheckingAccount) (a : Rat),
        ((c.withdraw a).balance = c.balance - a ∧
         (c.withdraw a).transactions = c.transactions ++ [⟨"Withdrawal", a⟩])
        ↔ a ≤ c.balance + c.overdraft_limit) ∧
    (∀ (c : CheckingAccount) (ops : List CheckingOp),
        0 ≤ c.overdraft_limit → -c.overdraft_limit ≤ c.balance →
        (∀ op ∈ ops, op.fromValidTransfer = true) →
        -(c.applyOps ops).overdraft_limit ≤ (c.applyOps ops).balance) := by
  constructor
  · intro c a
    constructor
    · rintro ⟨-, h2⟩
      by_contra hg
      rw [CheckingAccount.withdraw, if_neg hg] at h2
      have hlen := congrArg List.length h2
      simp at hlen
    · intro hg
      simp [CheckingAccount.withdraw, hg]
  · intro c ops hod hbal hv
    exact applyOps_balance_bound ops c hod hbal hv

/-- C6 witness: the theorem at the concrete checking account (balance 200,
overdraft limit 500) — the withdrawal characterization at amount 600, and the
overdraft bound after a deposit, an over-limit withdrawal attempt, a transfer
out and a transfer in. -/
theorem c6_checking_withdraw_and_overdraft_bound_witness :
    (((daveChecking.withdraw 600).balance = daveChecking.balance - 600 ∧
      (daveChecking.withdraw 600).transactions =
        daveChecking.transactions ++ [⟨"Withdrawal", 600⟩])
      ↔ (600:Rat) ≤ daveChecking.balance + daveChecking.overdraft_limit) ∧
    -(daveChecking.applyOps [CheckingOp.dep 100, CheckingOp.wd 700,
        CheckingOp.xferOut 50, CheckingOp.xferIn 60]).overdraft_limit ≤
      (daveChecking.applyOps [CheckingOp.dep 100, CheckingOp.wd 700,
        CheckingOp.xferOut 50, CheckingOp.xferIn 60]).balance :=
  ⟨c6_checking_withdraw_and_overdraft_bound.1 daveChecking 600,
   c6_checking_withdraw_and_overdraft_bound.2 daveChecking
     [CheckingOp.dep 100, CheckingOp.wd 700, CheckingOp.xferOut 50,
      CheckingOp.xferIn 60]
     (by decide) (by decide) (by decide)⟩
